import Mathlib

/-!
# NanoClaw governance core: shallow embedding and verification

The repository ships the test suites of its governance engine
(`gov-ipc.test.ts`, `governance/policy.test.ts`, `governance/gates.test.ts`,
`ext-broker-db.test.ts`, `ops-actions-create.test.ts`) but not the engine
sources themselves (`governance/policy.ts`, `governance/gates.ts`,
`gov-ipc.ts`, `ext-broker-db.ts`, `ops-http.ts` are absent).  The
definitions below therefore model those missing modules from the
specification (spec.md §3, §4.1, §4.2, §4.3, §4.6), with the in-repo test
suites pinning down the behaviours the spec leaves open (for example the
HTTP create handler's scope normalisation).
-/

namespace Nanoclaw

/-! ## Policy kernel (governance/policy.ts, governance/gates.ts) -/

/-- A Definition-of-Done checklist item as the kernel sees it
(`{label, done}` in `policy.test.ts`). -/
structure DodItem where
  label : String
  done : Bool
deriving Repr, DecidableEq

/-- An approval record as the kernel sees it (`{gate, approvedBy, evidenceLink?}`). -/
structure ApprovalLike where
  gate : String
  approvedBy : String
  evidenceLink : Option String := none
deriving Repr, DecidableEq

/-- An override record as the kernel sees it
(`{used, by, reason, acceptedRisk, reviewDeadlineIso}`). The TS field `by`
is a Lean keyword, so it is named `overrideBy` here. -/
structure OverrideLike where
  used : Bool
  overrideBy : String
  reason : String
  acceptedRisk : String
  reviewDeadlineIso : String
deriving Repr, DecidableEq

/-- The task projection consumed by `validateTransition` (`TaskLike` in
`governance/policy.ts`). -/
structure TaskLike where
  type : String
  priority : String
  owner : String
  gate : String
  evidenceRequired : Option Bool := none
  docsUpdated : Bool := false
  dodChecklist : List DodItem := []
  approvals : List ApprovalLike := []
  auditLink : Option String := none
  override : Option OverrideLike := none
deriving Repr, DecidableEq

/-- Result of `validateTransition`: `{ok, errors[]}`. -/
structure ValidationResult where
  ok : Bool
  errors : List String
deriving Repr, DecidableEq

/-- Modelled from the spec: the fixed transition graph of §4.1
(`governance/policy.ts` is missing from the sources).  `none` means the
source state is unknown. -/
def transitionGraph (s : String) : Option (List String) :=
  if s = "INBOX" then some ["TRIAGED", "BLOCKED"]
  else if s = "TRIAGED" then some ["READY", "BLOCKED"]
  else if s = "READY" then some ["DOING", "BLOCKED"]
  else if s = "DOING" then some ["REVIEW", "BLOCKED"]
  else if s = "REVIEW" then some ["APPROVAL", "DOING", "BLOCKED"]
  else if s = "APPROVAL" then some ["DONE", "REVIEW", "BLOCKED"]
  else if s = "BLOCKED" then some ["INBOX", "TRIAGED", "READY", "DOING"]
  else if s = "DONE" then some []
  else none

/-- Does some approval on the task match the task's own gate? -/
def gateApprovalMatch (t : TaskLike) : Bool :=
  t.approvals.any (fun a => a.gate == t.gate)

/-- Gate/override errors when entering `DONE` (spec §4.1 strict mode). -/
def gateErrors (t : TaskLike) : List String :=
  if t.gate = "None" then []
  else if gateApprovalMatch t then []
  else
    match t.override with
    | none => ["GATE_NOT_APPROVED"]
    | some o =>
      if o.used then
        (if o.overrideBy = "" then ["OVERRIDE_MISSING_BY"] else []) ++
        (if o.reason = "" then ["OVERRIDE_MISSING_REASON"] else []) ++
        (if o.acceptedRisk = "" then ["OVERRIDE_MISSING_ACCEPTED_RISK"] else []) ++
        (if o.reviewDeadlineIso = "" then ["OVERRIDE_MISSING_REVIEW_DEADLINE"] else [])
      else ["GATE_NOT_APPROVED"]

/-- Modelled from the spec: strict-mode validators of §4.1
(`governance/policy.ts` is missing from the sources). -/
def strictErrors (fromS toS : String) (t : TaskLike) : List String :=
  (if t.priority = "" then ["MISSING_PRIORITY"] else []) ++
  (if t.owner = "" then ["MISSING_OWNER"] else []) ++
  (if toS = "DOING" then
    (if t.dodChecklist.isEmpty then ["MISSING_DOD_CHECKLIST"] else []) ++
    (if t.evidenceRequired = none then ["MISSING_EVIDENCE_REQUIRED"] else [])
  else []) ++
  (if fromS = "REVIEW" ∧ t.evidenceRequired = some true then
    (if t.auditLink = none ∧ ¬ t.approvals.any (fun a => a.evidenceLink.isSome) then
      ["MISSING_EVIDENCE_LINK"]
    else [])
  else []) ++
  (if toS = "DONE" then
    (if ¬ t.dodChecklist.all (fun i => i.done) then ["DOD_INCOMPLETE"] else []) ++
    (if t.type = "SECURITY" ∧ t.docsUpdated = false then ["DOCS_NOT_UPDATED"] else []) ++
    gateErrors t
  else [])

/-- Modelled from the spec: `validateTransition(from, to, task?, strict?)`
of §4.1 (`governance/policy.ts` is missing from the sources).  Unknown
source state gives `UNKNOWN_STATE`; a missing edge gives
`INVALID_TRANSITION`; with a task and `strict=true` the strict validators
accumulate their error codes. -/
def validateTransition (fromS toS : String) (task : Option TaskLike := none)
    (strict : Bool := false) : ValidationResult :=
  match transitionGraph fromS with
  | none => ⟨false, ["UNKNOWN_STATE"]⟩
  | some succs =>
    if toS ∈ succs then
      match task, strict with
      | some t, true =>
        let errs := strictErrors fromS toS t
        ⟨errs.isEmpty, errs⟩
      | _, _ => ⟨true, []⟩
    else ⟨false, ["INVALID_TRANSITION"]⟩

/-- Modelled from the spec: the fixed gate→approver mapping of §4.1
(`governance/gates.ts` is missing from the sources). -/
def GATE_APPROVER (gate : String) : Option String :=
  if gate = "Security" then some "security"
  else if gate = "RevOps" then some "main"
  else if gate = "Claims" then some "main"
  else if gate = "Product" then some "main"
  else none

/-- Modelled from the spec: `checkApprover(gate, actorGroup, isMain)` of
§4.1 (`governance/gates.ts` is missing from the sources).  `main` may
approve any gate; otherwise the acting group must be the gate's mapped
approver. -/
def checkApprover (gate actorGroup : String) (isMain : Bool) : Option String :=
  if isMain then none
  else
    match GATE_APPROVER gate with
    | none => some ("FORBIDDEN: unknown gate " ++ gate)
    | some g =>
      if actorGroup = g then none
      else some ("FORBIDDEN: gate " ++ gate ++ " requires approval by " ++ g)

/-- Modelled from the spec: `checkApproverNotExecutor(actorGroup, executor)`
of §4.1 (`governance/gates.ts` is missing from the sources).  If `executor`
is non-null and equals `actorGroup` the approval is forbidden, with no
exemption for `main`. -/
def checkApproverNotExecutor (actorGroup : String) (executor : Option String) :
    Option String :=
  match executor with
  | none => none
  | some e =>
    if e = actorGroup then some "FORBIDDEN_executor: approver cannot be the executor"
    else none

/-! ## Governance store and engine (gov-db.ts, gov-ipc.ts) -/

/-- A product row (spec §3 Product). -/
structure Product where
  id : String
  name : String
  status : String
deriving Repr, DecidableEq

/-- A governance task row (spec §3 Task), restricted to the columns the
verified commands touch. -/
structure Task where
  id : String
  title : String
  task_type : String
  state : String
  priority : String
  scope : String
  product_id : Option String
  assigned_group : String
  executor : Option String
  created_by : String
  gate : String
  version : Nat
deriving Repr, DecidableEq

/-- An append-only audit activity row (spec §3 Activity). -/
structure Activity where
  task_id : String
  action : String
  from_state : Option String
  to_state : Option String
  actor : String
  reason : Option String
deriving Repr, DecidableEq

/-- An approval row, unique per `(task_id, gate_type)` (spec §3 Approval). -/
structure GovApproval where
  task_id : String
  gate_type : String
  approved_by : String
  notes : Option String
deriving Repr, DecidableEq

/-- The governance portion of the embedded store. -/
structure GovState where
  products : List Product
  tasks : List Task
  activities : List Activity
  approvals : List GovApproval
deriving Repr, DecidableEq

/-- Look a task up by id (`getGovTaskById`). -/
def findTask (s : GovState) (tid : String) : Option Task :=
  s.tasks.find? (fun t => t.id == tid)

/-- Look a product up by id (`getProductById`). -/
def findProduct (s : GovState) (pid : String) : Option Product :=
  s.products.find? (fun p => p.id == pid)

/-- Update every task row carrying the given primary key. -/
def updateTask (s : GovState) (tid : String) (f : Task → Task) : GovState :=
  { s with tasks := s.tasks.map (fun t => if t.id == tid then f t else t) }

/-- The recognized task types (spec §3). -/
def TASK_TYPES : List String :=
  ["FEATURE", "BUG", "EPIC", "SECURITY", "REVOPS", "OPS", "RESEARCH",
   "CONTENT", "DOC", "INCIDENT"]

/-- The recognized priorities (spec §3). -/
def PRIORITIES : List String := ["P0", "P1", "P2", "P3"]

/-- The recognized task gates (spec §3). -/
def GATES : List String := ["None", "Security", "RevOps", "Claims", "Product"]

/-- The gates an approval can target (spec §3, gate `None` is not approvable). -/
def APPROVAL_GATES : List String := ["Security", "RevOps", "Claims", "Product"]

/-- The recognized scopes (spec §3). -/
def SCOPES : List String := ["COMPANY", "PRODUCT"]

/-- Input of a Create command.  The engine generates the `gov-…` id from
the clock and a random suffix; the model receives that generated id as the
`id` field. -/
structure CreateInput where
  id : String
  title : Option String := none
  description : Option String := none
  task_type : Option String := none
  priority : Option String := none
  gate : Option String := none
  scope : Option String := none
  product_id : Option String := none
  assigned_group : Option String := none
deriving Repr, DecidableEq

/-- Modelled from the spec: the Create command of §4.2 (`gov-ipc.ts` is
missing from the sources).  The actor must be `main`; fields are
validated; `scope=PRODUCT` without `product_id` is coerced to COMPANY with
a `coerce_scope` activity by actor `system`; `scope=COMPANY` with a
`product_id` is rejected; a `product_id` must reference an existing
non-killed product; the task starts in `INBOX` at version 1 with a
`create` activity. -/
def govCreate (input : CreateInput) (sender : String) (isMain : Bool)
    (s : GovState) : Except String (String × GovState) :=
  if ¬ isMain then .error "FORBIDDEN_create"
  else
    match input.title with
    | none => .error "VALIDATION: title is required"
    | some title =>
      if title = "" then .error "VALIDATION: title is required"
      else if title.length > 140 then .error "VALIDATION: title exceeds 140 chars"
      else
        match input.task_type with
        | none => .error "VALIDATION: task_type is required"
        | some tt =>
          if tt ∉ TASK_TYPES then .error "VALIDATION: invalid task_type"
          else
            let pr := input.priority.getD "P2"
            if pr ∉ PRIORITIES then .error "VALIDATION: invalid priority"
            else
              let gate := input.gate.getD "None"
              if gate ∉ GATES then .error "VALIDATION: invalid gate"
              else
                let scopeEff := input.scope.getD
                  (if input.product_id.isSome then "PRODUCT" else "COMPANY")
                if scopeEff ∉ SCOPES then .error "VALIDATION: invalid scope"
                else if scopeEff = "COMPANY" ∧ input.product_id.isSome then
                  .error "VALIDATION: COMPANY scope cannot carry a product_id"
                else
                  match input.product_id with
                  | some pid =>
                    match findProduct s pid with
                    | none => .error "PRODUCT_NOT_FOUND"
                    | some p =>
                      if p.status = "killed" then .error "VALIDATION: product is killed"
                      else
                        let task : Task :=
                          { id := input.id, title := title, task_type := tt,
                            state := "INBOX", priority := pr, scope := scopeEff,
                            product_id := some pid,
                            assigned_group := input.assigned_group.getD "main",
                            executor := none, created_by := sender, gate := gate,
                            version := 1 }
                        .ok (input.id,
                          { s with
                            tasks := task :: s.tasks,
                            activities :=
                              ⟨input.id, "create", none, some "INBOX", sender, none⟩ ::
                              s.activities })
                  | none =>
                    let coerced := scopeEff = "PRODUCT"
                    let task : Task :=
                      { id := input.id, title := title, task_type := tt,
                        state := "INBOX", priority := pr, scope := "COMPANY",
                        product_id := none,
                        assigned_group := input.assigned_group.getD "main",
                        executor := none, created_by := sender, gate := gate,
                        version := 1 }
                    let base :=
                      ⟨input.id, "create", none, some "INBOX", sender, none⟩ ::
                      s.activities
                    .ok (input.id,
                      { s with
                        tasks := task :: s.tasks,
                        activities :=
                          if coerced then
                            ⟨input.id, "coerce_scope", none, none, "system",
                              some "PRODUCT_SCOPE_WITHOUT_PRODUCT_ID"⟩ :: base
                          else base })

/-- Modelled from the spec: is a string blank after trimming
(`reason.trim() === ""` in §4.2)?  Expressed as all-whitespace so the
kernel can evaluate it on concrete strings. -/
def isBlank (s : String) : Bool :=
  s.data.all (fun c => c.isWhitespace)

/-- Does a supplied `expectedVersion` disagree with the current version? -/
def staleVersion (expectedVersion : Option Nat) (current : Nat) : Bool :=
  match expectedVersion with
  | none => false
  | some v => v != current

/-- Modelled from the spec: the
`Transition(taskId, toState, reason?, expectedVersion?)` command of §4.2
(`gov-ipc.ts` is missing from the sources).  `main` may always transition
and the assigned group may transition its own task; a stale
`expectedVersion` is rejected; the same target state is a silent no-op;
the edge must be in the graph; in strict mode `DOING→REVIEW` needs a
non-blank trimmed reason; a `DOING→REVIEW` transition carrying a non-blank
reason additionally logs an `execution_summary` activity; the version bumps
by 1. -/
def govTransition (taskId : Option String) (toState : String)
    (reason : Option String) (expectedVersion : Option Nat)
    (sender : String) (isMain : Bool) (strict : Bool)
    (s : GovState) : Except String GovState :=
  match taskId with
  | none => .error "VALIDATION: taskId is required"
  | some tid =>
    match findTask s tid with
    | none => .error "NOT_FOUND: task"
    | some task =>
      if ¬ (isMain ∨ sender = task.assigned_group) then .error "FORBIDDEN_transition"
      else if staleVersion expectedVersion task.version then .error "STALE_VERSION"
      else if toState = task.state then .ok s
      else if ¬ (validateTransition task.state toState none false).ok then
        .error "POLICY_DENY: invalid transition"
      else if strict ∧ task.state = "DOING" ∧ toState = "REVIEW" ∧
          isBlank (reason.getD "") then
        .error "POLICY_DENY: MISSING_REVIEW_SUMMARY"
      else
        let s1 := updateTask s tid
          (fun t => { t with state := toState, version := t.version + 1 })
        let withSummary :=
          if task.state = "DOING" ∧ toState = "REVIEW" ∧ ¬ isBlank (reason.getD "") then
            [Activity.mk tid "execution_summary" (some "DOING") (some "REVIEW")
              sender reason]
          else []
        .ok { s1 with
              activities :=
                ⟨tid, "transition", some task.state, some toState, sender, reason⟩ ::
                withSummary ++ s1.activities }

/-- Modelled from the spec: the `Assign(taskId, assigned_group, executor?)`
command of §4.2 (`gov-ipc.ts` is missing from the sources).  Only `main`
may assign; the activity reason names the new group; the version bumps. -/
def govAssign (taskId : Option String) (grp : String) (executor : Option String)
    (sender : String) (isMain : Bool) (s : GovState) : Except String GovState :=
  match taskId with
  | none => .error "VALIDATION: taskId is required"
  | some tid =>
    if ¬ isMain then .error "FORBIDDEN_assign"
    else
      match findTask s tid with
      | none => .error "NOT_FOUND: task"
      | some _ =>
        let s1 := updateTask s tid (fun t =>
          { t with assigned_group := grp,
                   executor := executor.orElse (fun _ => t.executor),
                   version := t.version + 1 })
        .ok { s1 with
              activities :=
                ⟨tid, "assign", none, none, sender, some ("assigned to " ++ grp)⟩ ::
                s1.activities }

/-- Modelled from the spec: the `Approve(taskId, gate_type, notes?)` command
of §4.2 (`gov-ipc.ts` is missing from the sources).  `checkApprover` and
`checkApproverNotExecutor` must both pass; the approval row is an upsert on
`(task_id, gate_type)`; an `approve` activity naming the gate is logged and
the version bumps (spec §3: version increments on every mutation). -/
def govApprove (taskId : Option String) (gateType : String) (notes : Option String)
    (sender : String) (isMain : Bool) (s : GovState) : Except String GovState :=
  match taskId with
  | none => .error "VALIDATION: taskId is required"
  | some tid =>
    if gateType ∉ APPROVAL_GATES then .error "VALIDATION: invalid gate_type"
    else
      match findTask s tid with
      | none => .error "NOT_FOUND: task"
      | some task =>
        match checkApprover gateType sender isMain with
        | some e => .error e
        | none =>
          match checkApproverNotExecutor sender task.executor with
          | some e => .error e
          | none =>
            let s1 := updateTask s tid (fun t => { t with version := t.version + 1 })
            .ok { s1 with
                  approvals :=
                    ⟨tid, gateType, sender, notes⟩ ::
                    s1.approvals.filter
                      (fun a => !(a.task_id == tid && a.gate_type == gateType)),
                  activities :=
                    ⟨tid, "approve", none, none, sender,
                      some ("Gate " ++ gateType ++ " approved")⟩ ::
                    s1.activities }

/-- The governance IPC commands covered by the verification. -/
inductive GovCmd where
  | create (input : CreateInput)
  | transition (taskId : Option String) (toState : String)
      (reason : Option String) (expectedVersion : Option Nat)
  | assign (taskId : Option String) (grp : String) (executor : Option String)
  | approve (taskId : Option String) (gateType : String) (notes : Option String)
deriving Repr

/-- Modelled from the spec: `processGovIpc(msg, sender, isMain)` of §4.2 and
§7 (`gov-ipc.ts` is missing from the sources).  The IPC path is lenient:
a failing command logs and returns without mutation, so the state is
returned unchanged on any error.  `strict` reflects `GOV_STRICT=1`. -/
def processGovIpc (cmd : GovCmd) (sender : String) (isMain : Bool)
    (strict : Bool) (s : GovState) : GovState :=
  match cmd with
  | .create input =>
    match govCreate input sender isMain s with
    | .ok (_, s') => s'
    | .error _ => s
  | .transition tid toState reason ev =>
    match govTransition tid toState reason ev sender isMain strict s with
    | .ok s' => s'
    | .error _ => s
  | .assign tid grp executor =>
    match govAssign tid grp executor sender isMain s with
    | .ok s' => s'
    | .error _ => s
  | .approve tid gateType notes =>
    match govApprove tid gateType notes sender isMain s with
    | .ok s' => s'
    | .error _ => s

/-! ## HTTP create handler (ops-http.ts / ops-actions) -/

/-- Outcome of `POST /ops/actions/create`. -/
structure HttpCreateResult where
  status : Nat
  error : Option String
  taskId : Option String
deriving Repr, DecidableEq

/-- Modelled from the spec: the `POST /ops/actions/create` handler of §4.6
(`ops-http.ts` is missing from the sources), with the scope normalisation
pinned by `ops-actions-create.test.ts`: a validation layer rejects
`PRODUCT` scope without a `product_id` (400) and forces `product_id` to
null under `COMPANY` scope, then invokes the same engine Create acting as
`main`.  Authentication is out of scope of the modelled claims. -/
def opsActionsCreate (input : CreateInput) (s : GovState) :
    HttpCreateResult × GovState :=
  match input.title with
  | none => (⟨400, some "title is required", none⟩, s)
  | some title =>
    if title = "" then (⟨400, some "title is required", none⟩, s)
    else if title.length > 140 then
      (⟨400, some "title exceeds 140 chars", none⟩, s)
    else
      match input.task_type with
      | none => (⟨400, some "task_type is required", none⟩, s)
      | some tt =>
        if tt ∉ TASK_TYPES then (⟨400, some "invalid task_type", none⟩, s)
        else if input.priority.getD "P2" ∉ PRIORITIES then
          (⟨400, some "invalid priority", none⟩, s)
        else if input.gate.getD "None" ∉ GATES then
          (⟨400, some "invalid gate", none⟩, s)
        else
          let scopeEff := input.scope.getD
            (if input.product_id.isSome then "PRODUCT" else "COMPANY")
          if scopeEff ∉ SCOPES then (⟨400, some "invalid scope", none⟩, s)
          else if scopeEff = "PRODUCT" ∧ input.product_id = none then
            (⟨400, some "product_id is required for PRODUCT scope", none⟩, s)
          else
            let input' :=
              if scopeEff = "COMPANY" then
                { input with scope := some "COMPANY", product_id := none }
              else input
            match govCreate input' "main" true s with
            | .ok (tid, s') => (⟨201, none, some tid⟩, s')
            | .error e =>
              if e = "PRODUCT_NOT_FOUND" then (⟨404, some e, none⟩, s)
              else (⟨400, some e, none⟩, s)

/-! ## External-access broker store (ext-broker-db.ts) -/

/-- An `ext_calls` audit row (spec §3 ExtCall). -/
structure ExtCall where
  request_id : String
  group_folder : String
  provider : String
  action : String
  status : String
  response_data : Option String
  task_id : Option String
  idempotency_key : Option String
  created_at : String
deriving Repr, DecidableEq

/-- Pick the row whose key is maximal (the `ORDER BY created_at DESC
LIMIT 1` of the lookup query). -/
def latestBy (f : ExtCall → String) : List ExtCall → Option ExtCall
  | [] => none
  | c :: rest =>
    match latestBy f rest with
    | none => some c
    | some b => if f c ≤ f b then some b else some c

/-- Modelled from the spec: `getExtCallByIdempotencyKey(key, provider, action)`
of §4.3 step 7 (`ext-broker-db.ts` is missing from the sources): the prior
call must match the key, provider and action and have status `executed`;
among several matches the most recently created row wins
(`ORDER BY created_at DESC LIMIT 1`). -/
def getExtCallByIdempotencyKey (key provider action : String)
    (calls : List ExtCall) : Option ExtCall :=
  latestBy (fun c => c.created_at)
    (calls.filter (fun c =>
      c.idempotency_key == some key && c.provider == provider &&
      c.action == action && c.status == "executed"))

/-! ## Helper lemmas -/

/-- Updating the rows matching a primary key commutes with looking the key
up, provided the update preserves the key. -/
theorem find_map_update (l : List Task) (tid : String) (f : Task → Task)
    (hf : ∀ t, (f t).id = t.id) :
    (l.map (fun t => if t.id == tid then f t else t)).find? (fun t => t.id == tid)
      = (l.find? (fun t => t.id == tid)).map f := by
  induction l with
  | nil => rfl
  | cons a l ih =>
    simp only [List.map_cons]
    by_cases h : a.id = tid
    · have h1 : (if (a.id == tid) = true then f a else a) = f a := by simp [h]
      rw [h1, List.find?_cons_of_pos _ (by simp [hf, h]),
        List.find?_cons_of_pos _ (by simp [h])]
      simp
    · have h1 : (if (a.id == tid) = true then f a else a) = a := by simp [h]
      rw [h1, List.find?_cons_of_neg _ (by simp [h]),
        List.find?_cons_of_neg _ (by simp [h])]
      exact ih

/-- Filtering for a predicate after filtering for its negation is empty. -/
theorem filter_not_filter (l : List GovApproval) (p : GovApproval → Bool) :
    (l.filter (fun a => !p a)).filter p = [] := by
  induction l with
  | nil => rfl
  | cons a l ih =>
    by_cases h : p a
    · simp [List.filter, h, ih]
    · simp [List.filter, h, ih]

/-- Filtering for the negation of a predicate is idempotent. -/
theorem filter_not_idem (l : List GovApproval) (p : GovApproval → Bool) :
    ((l.filter (fun a => !p a)).filter (fun a => !p a)) = l.filter (fun a => !p a) := by
  induction l with
  | nil => rfl
  | cons a l ih =>
    by_cases h : p a
    · simp [List.filter, h, ih]
    · simp [List.filter, h, ih]

/-- Is the override fully populated (spec §4.1: `by`, `reason`,
`acceptedRisk`, `reviewDeadlineIso` all present)? -/
def overrideFull (t : TaskLike) : Bool :=
  match t.override with
  | none => false
  | some o =>
    o.used && !(o.overrideBy == "") && !(o.reason == "") &&
    !(o.acceptedRisk == "") && !(o.reviewDeadlineIso == "")

/-- The strict validators for `APPROVAL → DONE` reduce to the priority,
owner, DoD, docs and gate chunks. -/
theorem strictErrors_done (t : TaskLike) :
    strictErrors "APPROVAL" "DONE" t =
      (if t.priority = "" then ["MISSING_PRIORITY"] else []) ++
      (if t.owner = "" then ["MISSING_OWNER"] else []) ++
      ((if ¬ t.dodChecklist.all (fun i => i.done) then ["DOD_INCOMPLETE"] else []) ++
       (if t.type = "SECURITY" ∧ t.docsUpdated = false then ["DOCS_NOT_UPDATED"] else []) ++
       gateErrors t) := by
  simp [strictErrors]

/-- `validateTransition` into `DONE` from `APPROVAL` in strict mode returns
exactly the strict error list. -/
theorem validateTransition_done (t : TaskLike) :
    validateTransition "APPROVAL" "DONE" (some t) true =
      ⟨(strictErrors "APPROVAL" "DONE" t).isEmpty, strictErrors "APPROVAL" "DONE" t⟩ := by
  simp [validateTransition, transitionGraph]

/-- The gate check passes exactly when the gate is `None`, a matching
approval exists, or the override is fully populated. -/
theorem gateErrors_eq_nil (t : TaskLike) :
    gateErrors t = [] ↔
      (t.gate = "None" ∨ gateApprovalMatch t = true ∨ overrideFull t = true) := by
  unfold gateErrors overrideFull
  by_cases hg : t.gate = "None"
  · simp [hg]
  · simp only [hg, if_false]
    by_cases hm : gateApprovalMatch t
    · simp [hm]
    · simp only [hm, Bool.false_eq_true, if_false]
      cases ho : t.override with
      | none => simp [hm]
      | some o =>
        by_cases hu : o.used
        · by_cases b1 : o.overrideBy = "" <;>
          by_cases b2 : o.reason = "" <;>
          by_cases b3 : o.acceptedRisk = "" <;>
          by_cases b4 : o.reviewDeadlineIso = "" <;>
            simp [hu, b1, b2, b3, b4, hm, hg]
        · simp [hu, hm, hg]

/-! ## Claim theorems -/

/-- The spec's own enumeration of the workflow edges (spec §4.1), to be
compared against the modelled `validateTransition`. -/
def specTransitionEdges : List (String × String) :=
  [("INBOX", "TRIAGED"), ("INBOX", "BLOCKED"),
   ("TRIAGED", "READY"), ("TRIAGED", "BLOCKED"),
   ("READY", "DOING"), ("READY", "BLOCKED"),
   ("DOING", "REVIEW"), ("DOING", "BLOCKED"),
   ("REVIEW", "APPROVAL"), ("REVIEW", "DOING"), ("REVIEW", "BLOCKED"),
   ("APPROVAL", "DONE"), ("APPROVAL", "REVIEW"), ("APPROVAL", "BLOCKED"),
   ("BLOCKED", "INBOX"), ("BLOCKED", "TRIAGED"), ("BLOCKED", "READY"),
   ("BLOCKED", "DOING")]

/-- The spec's enumeration of the eight task states (spec §3). -/
def specKnownStates : List String :=
  ["INBOX", "TRIAGED", "READY", "DOING", "REVIEW", "APPROVAL", "DONE", "BLOCKED"]

/-- C3: `validateTransition(from, to)` returns ok exactly for the eighteen
edges of the fixed graph; for every pair whose source is not one of the
eight known states the error is `UNKNOWN_STATE`, and for every known
source without an edge to the target the error is `INVALID_TRANSITION`
(`DONE` is terminal, having no outgoing edge). -/
theorem validateTransition_graph_spec :
    ∀ fromS toS : String,
      ((validateTransition fromS toS none false).ok = true ↔
        (fromS, toS) ∈ specTransitionEdges) ∧
      (fromS ∉ specKnownStates →
        validateTransition fromS toS none false = ⟨false, ["UNKNOWN_STATE"]⟩) ∧
      (fromS ∈ specKnownStates → (fromS, toS) ∉ specTransitionEdges →
        validateTransition fromS toS none false = ⟨false, ["INVALID_TRANSITION"]⟩) := by
  intro fromS toS
  by_cases h1 : fromS = "INBOX"
  · subst h1
    refine ⟨?_, fun h => absurd (by simp [specKnownStates]) h, fun _ hne => ?_⟩
    · by_cases ht : toS ∈ ["TRIAGED", "BLOCKED"]
      · simp [validateTransition, transitionGraph, specTransitionEdges, ht]
        simp at ht; tauto
      · simp [validateTransition, transitionGraph, specTransitionEdges, ht]
        simp at ht; tauto
    · by_cases ht : toS ∈ ["TRIAGED", "BLOCKED"]
      · exfalso; apply hne; simp [specTransitionEdges]; simp at ht; tauto
      · simp [validateTransition, transitionGraph, ht]
  by_cases h2 : fromS = "TRIAGED"
  · subst h2
    refine ⟨?_, fun h => absurd (by simp [specKnownStates]) h, fun _ hne => ?_⟩
    · by_cases ht : toS ∈ ["READY", "BLOCKED"]
      · simp [validateTransition, transitionGraph, specTransitionEdges, ht]
        simp at ht; tauto
      · simp [validateTransition, transitionGraph, specTransitionEdges, ht]
        simp at ht; tauto
    · by_cases ht : toS ∈ ["READY", "BLOCKED"]
      · exfalso; apply hne; simp [specTransitionEdges]; simp at ht; tauto
      · simp [validateTransition, transitionGraph, ht]
  by_cases h3 : fromS = "READY"
  · subst h3
    refine ⟨?_, fun h => absurd (by simp [specKnownStates]) h, fun _ hne => ?_⟩
    · by_cases ht : toS ∈ ["DOING", "BLOCKED"]
      · simp [validateTransition, transitionGraph, specTransitionEdges, ht]
        simp at ht; tauto
      · simp [validateTransition, transitionGraph, specTransitionEdges, ht]
        simp at ht; tauto
    · by_cases ht : toS ∈ ["DOING", "BLOCKED"]
      · exfalso; apply hne; simp [specTransitionEdges]; simp at ht; tauto
      · simp [validateTransition, transitionGraph, ht]
  by_cases h4 : fromS = "DOING"
  · subst h4
    refine ⟨?_, fun h => absurd (by simp [specKnownStates]) h, fun _ hne => ?_⟩
    · by_cases ht : toS ∈ ["REVIEW", "BLOCKED"]
      · simp [validateTransition, transitionGraph, specTransitionEdges, ht]
        simp at ht; tauto
      · simp [validateTransition, transitionGraph, specTransitionEdges, ht]
        simp at ht; tauto
    · by_cases ht : toS ∈ ["REVIEW", "BLOCKED"]
      · exfalso; apply hne; simp [specTransitionEdges]; simp at ht; tauto
      · simp [validateTransition, transitionGraph, ht]
  by_cases h5 : fromS = "REVIEW"
  · subst h5
    refine ⟨?_, fun h => absurd (by simp [specKnownStates]) h, fun _ hne => ?_⟩
    · by_cases ht : toS ∈ ["APPROVAL", "DOING", "BLOCKED"]
      · simp [validateTransition, transitionGraph, specTransitionEdges, ht]
        simp at ht; tauto
      · simp [validateTransition, transitionGraph, specTransitionEdges, ht]
        simp at ht; tauto
    · by_cases ht : toS ∈ ["APPROVAL", "DOING", "BLOCKED"]
      · exfalso; apply hne; simp [specTransitionEdges]; simp at ht; tauto
      · simp [validateTransition, transitionGraph, ht]
  by_cases h6 : fromS = "APPROVAL"
  · subst h6
    refine ⟨?_, fun h => absurd (by simp [specKnownStates]) h, fun _ hne => ?_⟩
    · by_cases ht : toS ∈ ["DONE", "REVIEW", "BLOCKED"]
      · simp [validateTransition, transitionGraph, specTransitionEdges, ht]
        simp at ht; tauto
      · simp [validateTransition, transitionGraph, specTransitionEdges, ht]
        simp at ht; tauto
    · by_cases ht : toS ∈ ["DONE", "REVIEW", "BLOCKED"]
      · exfalso; apply hne; simp [specTransitionEdges]; simp at ht; tauto
      · simp [validateTransition, transitionGraph, ht]
  by_cases h7 : fromS = "BLOCKED"
  · subst h7
    refine ⟨?_, fun h => absurd (by simp [specKnownStates]) h, fun _ hne => ?_⟩
    · by_cases ht : toS ∈ ["INBOX", "TRIAGED", "READY", "DOING"]
      · simp [validateTransition, transitionGraph, specTransitionEdges, ht]
        simp at ht; tauto
      · simp [validateTransition, transitionGraph, specTransitionEdges, ht]
        simp at ht; tauto
    · by_cases ht : toS ∈ ["INBOX", "TRIAGED", "READY", "DOING"]
      · exfalso; apply hne; simp [specTransitionEdges]; simp at ht; tauto
      · simp [validateTransition, transitionGraph, ht]
  by_cases h8 : fromS = "DONE"
  · subst h8
    refine ⟨?_, fun h => absurd (by simp [specKnownStates]) h, fun _ _ => ?_⟩
    · simp [validateTransition, transitionGraph, specTransitionEdges]
    · simp [validateTransition, transitionGraph]
  · have hg : transitionGraph fromS = none := by
      simp [transitionGraph, h1, h2, h3, h4, h5, h6, h7, h8]
    refine ⟨?_, fun _ => ?_, fun hmem _ => ?_⟩
    · simp [validateTransition, hg, specTransitionEdges, h1, h2, h3, h4, h5, h6, h7, h8]
    · simp [validateTransition, hg]
    · exfalso
      simp [specKnownStates, h1, h2, h3, h4, h5, h6, h7, h8] at hmem

/-- C3 witness: an unknown source state is reported as `UNKNOWN_STATE`. -/
theorem validateTransition_graph_spec_witness :
    validateTransition "NOPE" "DOING" none false = ⟨false, ["UNKNOWN_STATE"]⟩ :=
  (validateTransition_graph_spec "NOPE" "DOING").2.1 (by decide)

/-- C4: `checkApproverNotExecutor` forbids exactly when the executor is
non-null and equals the acting group (for every group, `main` included),
and consequently an approve command issued by the task's executor leaves
the store untouched — in particular it writes no approval row. -/
theorem approver_not_executor_spec :
    (∀ (g : String) (e : Option String),
      checkApproverNotExecutor g e =
        if e = some g then
          some "FORBIDDEN_executor: approver cannot be the executor"
        else none) ∧
    (∀ (s : GovState) (tid : String) (task : Task) (gt : String)
        (n : Option String) (sender : String) (isMain strict : Bool),
      findTask s tid = some task → task.executor = some sender →
      (∃ e, govApprove (some tid) gt n sender isMain s = .error e) ∧
      processGovIpc (.approve (some tid) gt n) sender isMain strict s = s) := by
  constructor
  · intro g e
    cases e with
    | none => simp [checkApproverNotExecutor]
    | some x =>
      by_cases h : x = g
      · simp [checkApproverNotExecutor, h]
      · simp [checkApproverNotExecutor, h, Option.some_inj]
  · intro s tid task gt n sender isMain strict hfind hexec
    have herr : ∃ e, govApprove (some tid) gt n sender isMain s = .error e := by
      unfold govApprove
      by_cases hg : gt ∉ APPROVAL_GATES
      · simp [hg]
      · simp only [hg, if_false, hfind]
        cases hca : checkApprover gt sender isMain with
        | some e => simp
        | none =>
          simp only [hexec, checkApproverNotExecutor]
          simp
    refine ⟨herr, ?_⟩
    obtain ⟨e, he⟩ := herr
    simp [processGovIpc, he]

/-- C4 witness: the `security` group cannot approve a task it executes. -/
theorem approver_not_executor_spec_witness :
    processGovIpc (.approve (some "t1") "Security" none) "security" false false
      ⟨[], [⟨"t1", "x", "BUG", "APPROVAL", "P2", "COMPANY", none, "security",
        some "security", "main", "Security", 1⟩], [], []⟩ =
      ⟨[], [⟨"t1", "x", "BUG", "APPROVAL", "P2", "COMPANY", none, "security",
        some "security", "main", "Security", 1⟩], [], []⟩ :=
  (approver_not_executor_spec.2
    ⟨[], [⟨"t1", "x", "BUG", "APPROVAL", "P2", "COMPANY", none, "security",
      some "security", "main", "Security", 1⟩], [], []⟩ "t1"
    ⟨"t1", "x", "BUG", "APPROVAL", "P2", "COMPANY", none, "security",
      some "security", "main", "Security", 1⟩
    "Security" none "security" false false rfl rfl).2

/-- C5: in strict mode, `validateTransition` into `DONE` passes exactly when
priority and owner are present, every DoD item is done, a SECURITY task has
its docs updated, and the gate is `None`, matched by an approval, or covered
by a fully populated override; each missing piece surfaces as its error
code (`DOD_INCOMPLETE`, `DOCS_NOT_UPDATED`, `GATE_NOT_APPROVED`,
`OVERRIDE_MISSING_*`). -/
theorem strict_done_gating_spec :
    ∀ t : TaskLike,
      ((validateTransition "APPROVAL" "DONE" (some t) true).ok = true ↔
        (t.priority ≠ "" ∧ t.owner ≠ "" ∧
         t.dodChecklist.all (fun i => i.done) = true ∧
         (t.type = "SECURITY" → t.docsUpdated = true) ∧
         (t.gate = "None" ∨ gateApprovalMatch t = true ∨ overrideFull t = true))) ∧
      (t.dodChecklist.all (fun i => i.done) = false →
        "DOD_INCOMPLETE" ∈ (validateTransition "APPROVAL" "DONE" (some t) true).errors) ∧
      (t.type = "SECURITY" → t.docsUpdated = false →
        "DOCS_NOT_UPDATED" ∈ (validateTransition "APPROVAL" "DONE" (some t) true).errors) ∧
      (t.gate ≠ "None" → gateApprovalMatch t = false → t.override = none →
        "GATE_NOT_APPROVED" ∈ (validateTransition "APPROVAL" "DONE" (some t) true).errors) ∧
      (∀ o : OverrideLike, t.gate ≠ "None" → gateApprovalMatch t = false →
        t.override = some o → o.used = true →
        ((o.overrideBy = "" → "OVERRIDE_MISSING_BY" ∈
            (validateTransition "APPROVAL" "DONE" (some t) true).errors) ∧
         (o.reason = "" → "OVERRIDE_MISSING_REASON" ∈
            (validateTransition "APPROVAL" "DONE" (some t) true).errors) ∧
         (o.acceptedRisk = "" → "OVERRIDE_MISSING_ACCEPTED_RISK" ∈
            (validateTransition "APPROVAL" "DONE" (some t) true).errors) ∧
         (o.reviewDeadlineIso = "" → "OVERRIDE_MISSING_REVIEW_DEADLINE" ∈
            (validateTransition "APPROVAL" "DONE" (some t) true).errors))) := by
  intro t
  rw [validateTransition_done t]
  simp only [strictErrors_done t]
  refine ⟨?_, ?_, ?_, ?_, ?_⟩
  · have hdocs : (t.type = "SECURITY" → t.docsUpdated = true) ↔
        ¬(t.type = "SECURITY" ∧ t.docsUpdated = false) := by
      constructor
      · rintro h ⟨ha, hb⟩
        rw [h ha] at hb
        simp at hb
      · intro h ha
        by_cases hd : t.docsUpdated
        · exact hd
        · exact absurd ⟨ha, by simp [hd]⟩ h
    rw [hdocs, ← gateErrors_eq_nil t]
    by_cases hp : t.priority = "" <;>
    by_cases ho : t.owner = "" <;>
    by_cases hd : (t.dodChecklist.all (fun i => i.done)) = true <;>
    by_cases hsec : t.type = "SECURITY" ∧ t.docsUpdated = false <;>
    by_cases hg : gateErrors t = [] <;>
      simp [hp, ho, hd, hsec, hg, List.isEmpty_iff]
  · intro hd
    simp [List.mem_append, hd]
  · intro hty hdu
    simp [List.mem_append, hty, hdu]
  · intro hg hm ho
    have : gateErrors t = ["GATE_NOT_APPROVED"] := by
      simp [gateErrors, hg, hm, ho]
    simp [List.mem_append, this]
  · intro o hg hm ho hu
    have hge : gateErrors t =
        (if o.overrideBy = "" then ["OVERRIDE_MISSING_BY"] else []) ++
        (if o.reason = "" then ["OVERRIDE_MISSING_REASON"] else []) ++
        (if o.acceptedRisk = "" then ["OVERRIDE_MISSING_ACCEPTED_RISK"] else []) ++
        (if o.reviewDeadlineIso = "" then ["OVERRIDE_MISSING_REVIEW_DEADLINE"] else []) := by
      simp [gateErrors, hg, hm, ho, hu]
    refine ⟨fun b1 => ?_, fun b2 => ?_, fun b3 => ?_, fun b4 => ?_⟩ <;>
      simp [List.mem_append, hge, *]

/-- C5 witness: an unchecked DoD item blocks entering `DONE`. -/
theorem strict_done_gating_spec_witness :
    "DOD_INCOMPLETE" ∈ (validateTransition "APPROVAL" "DONE"
      (some { type := "FEATURE", priority := "P2", owner := "developer",
              gate := "None", dodChecklist := [⟨"Docs", false⟩] }) true).errors :=
  (strict_done_gating_spec
    { type := "FEATURE", priority := "P2", owner := "developer",
      gate := "None", dodChecklist := [⟨"Docs", false⟩] }).2.1 (by decide)

/-- C6: every successful mutating command on a task bumps its version by
exactly 1 (state-changing transition, assign, approve), and a transition
carrying a stale `expectedVersion` is rejected with the store — state,
version and activity log — left untouched. -/
theorem version_bump_and_stale_rejection :
    (∀ (s s' : GovState) (tid toState : String) (reason : Option String)
        (ev : Option Nat) (sender : String) (isMain strict : Bool) (task : Task),
      findTask s tid = some task → toState ≠ task.state →
      govTransition (some tid) toState reason ev sender isMain strict s = .ok s' →
      findTask s' tid = some { task with state := toState, version := task.version + 1 }) ∧
    (∀ (s s' : GovState) (tid grp : String) (executor : Option String)
        (sender : String) (isMain : Bool) (task : Task),
      findTask s tid = some task →
      govAssign (some tid) grp executor sender isMain s = .ok s' →
      ∃ t', findTask s' tid = some t' ∧ t'.version = task.version + 1) ∧
    (∀ (s s' : GovState) (tid g : String) (n : Option String)
        (sender : String) (isMain : Bool) (task : Task),
      findTask s tid = some task →
      govApprove (some tid) g n sender isMain s = .ok s' →
      ∃ t', findTask s' tid = some t' ∧ t'.version = task.version + 1) ∧
    (∀ (s : GovState) (tid toState : String) (reason : Option String) (v : Nat)
        (sender : String) (isMain strict : Bool) (task : Task),
      findTask s tid = some task → v ≠ task.version →
      (∃ e, govTransition (some tid) toState reason (some v) sender isMain strict s
        = .error e) ∧
      processGovIpc (.transition (some tid) toState reason (some v))
        sender isMain strict s = s) := by
  refine ⟨?_, ?_, ?_, ?_⟩
  · intro s s' tid toState reason ev sender isMain strict task hfind hne hok
    have hsame : (toState = task.state) ↔ False := iff_false_intro hne
    simp only [govTransition, hfind, hsame, if_false] at hok
    repeat' split at hok
    all_goals first
      | exact Except.noConfusion hok
      | (rw [Except.ok.injEq] at hok
         subst hok
         simp only [findTask, updateTask]
         rw [find_map_update s.tasks tid (fun t => { t with state := toState, version := t.version + 1 }) (fun t => rfl)]
         simp only [findTask] at hfind
         rw [hfind]
         rfl)
  · intro s s' tid grp executor sender isMain task hfind hok
    simp only [govAssign, hfind] at hok
    repeat' split at hok
    all_goals first
      | exact Except.noConfusion hok
      | (rw [Except.ok.injEq] at hok
         subst hok
         refine ⟨{ task with assigned_group := grp, executor := executor.orElse (fun _ => task.executor), version := task.version + 1 }, ?_, rfl⟩
         simp only [findTask, updateTask]
         rw [find_map_update s.tasks tid (fun t => { t with assigned_group := grp, executor := executor.orElse (fun _ => t.executor), version := t.version + 1 }) (fun t => rfl)]
         simp only [findTask] at hfind
         rw [hfind]
         rfl)
  · intro s s' tid g n sender isMain task hfind hok
    simp only [govApprove, hfind] at hok
    repeat' split at hok
    all_goals first
      | exact Except.noConfusion hok
      | (rw [Except.ok.injEq] at hok
         subst hok
         refine ⟨{ task with version := task.version + 1 }, ?_, rfl⟩
         simp only [findTask, updateTask]
         rw [find_map_update s.tasks tid (fun t => { t with version := t.version + 1 }) (fun t => rfl)]
         simp only [findTask] at hfind
         rw [hfind]
         rfl)
  · intro s tid toState reason v sender isMain strict task hfind hv
    have herr : ∃ e, govTransition (some tid) toState reason (some v) sender isMain
        strict s = .error e := by
      have hstale : staleVersion (some v) task.version = true := by
        simp [staleVersion, hv]
      simp only [govTransition, hfind]
      split
      · simp
      · simp [hstale]
    refine ⟨herr, ?_⟩
    obtain ⟨e, he⟩ := herr
    simp [processGovIpc, he]

/-- C6 witness: a transition with `expectedVersion = 999` against a task at
version 1 leaves the store unchanged. -/
theorem version_bump_and_stale_rejection_witness :
    processGovIpc (.transition (some "task-1") "TRIAGED" none (some 999))
      "main" true false
      ⟨[], [⟨"task-1", "Test task", "BUG", "INBOX", "P2", "COMPANY", none,
        "developer", none, "main", "None", 1⟩], [], []⟩ =
      ⟨[], [⟨"task-1", "Test task", "BUG", "INBOX", "P2", "COMPANY", none,
        "developer", none, "main", "None", 1⟩], [], []⟩ :=
  (version_bump_and_stale_rejection.2.2.2
    ⟨[], [⟨"task-1", "Test task", "BUG", "INBOX", "P2", "COMPANY", none,
      "developer", none, "main", "None", 1⟩], [], []⟩
    "task-1" "TRIAGED" none 999 "main" true false
    ⟨"task-1", "Test task", "BUG", "INBOX", "P2", "COMPANY", none,
      "developer", none, "main", "None", 1⟩
    rfl (by decide)).2

/-- C7: a transition whose target equals the task's current state is a
silent no-op: the command succeeds and the store — state, version, activity
log — is returned exactly unchanged. -/
theorem same_state_transition_noop :
    ∀ (s : GovState) (tid : String) (task : Task) (reason : Option String)
      (ev : Option Nat) (sender : String) (isMain strict : Bool),
      findTask s tid = some task →
      (isMain ∨ sender = task.assigned_group) →
      (ev = none ∨ ev = some task.version) →
      govTransition (some tid) task.state reason ev sender isMain strict s = .ok s ∧
      processGovIpc (.transition (some tid) task.state reason ev)
        sender isMain strict s = s := by
  intro s tid task reason ev sender isMain strict hfind hauth hev
  have hstale : staleVersion ev task.version = false := by
    rcases hev with h | h <;> simp [staleVersion, h]
  have hok : govTransition (some tid) task.state reason ev sender isMain strict s
      = .ok s := by
    simp [govTransition, hfind, hauth, hstale]
  exact ⟨hok, by simp [processGovIpc, hok]⟩

/-- C7 witness: transitioning an `INBOX` task to `INBOX` changes nothing. -/
theorem same_state_transition_noop_witness :
    govTransition (some "task-1") "INBOX" none none "main" true false
      ⟨[], [⟨"task-1", "Test task", "BUG", "INBOX", "P2", "COMPANY", none,
        "developer", none, "main", "None", 1⟩], [], []⟩ =
      .ok ⟨[], [⟨"task-1", "Test task", "BUG", "INBOX", "P2", "COMPANY", none,
        "developer", none, "main", "None", 1⟩], [], []⟩ ∧
    processGovIpc (.transition (some "task-1") "INBOX" none none) "main" true false
      ⟨[], [⟨"task-1", "Test task", "BUG", "INBOX", "P2", "COMPANY", none,
        "developer", none, "main", "None", 1⟩], [], []⟩ =
      ⟨[], [⟨"task-1", "Test task", "BUG", "INBOX", "P2", "COMPANY", none,
        "developer", none, "main", "None", 1⟩], [], []⟩ :=
  same_state_transition_noop
    ⟨[], [⟨"task-1", "Test task", "BUG", "INBOX", "P2", "COMPANY", none,
      "developer", none, "main", "None", 1⟩], [], []⟩
    "task-1"
    ⟨"task-1", "Test task", "BUG", "INBOX", "P2", "COMPANY", none,
      "developer", none, "main", "None", 1⟩
    none none "main" true false rfl (Or.inl rfl) (Or.inl rfl)

/-- The state effect of a successful Approve command: version bump, one
approve activity, and the `(task_id, gate_type)` upsert of the approval row. -/
def approveEffect (tid g a : String) (n : Option String) (s : GovState) : GovState :=
  { products := s.products,
    tasks := s.tasks.map (fun t => if t.id == tid then { t with version := t.version + 1 } else t),
    activities := ⟨tid, "approve", none, none, a, some ("Gate " ++ g ++ " approved")⟩ :: s.activities,
    approvals := ⟨tid, g, a, n⟩ :: s.approvals.filter (fun x => !(x.task_id == tid && x.gate_type == g)) }

/-- A permitted Approve command through the IPC layer produces exactly the
approve effect. -/
theorem processGovIpc_approve_components {s : GovState} {tid : String}
    {task : Task} {g : String} (n : Option String) (a : String) (m strict : Bool)
    (hfind : findTask s tid = some task) (hg : g ∈ APPROVAL_GATES)
    (hca : checkApprover g a m = none)
    (hce : checkApproverNotExecutor a task.executor = none) :
    processGovIpc (.approve (some tid) g n) a m strict s = approveEffect tid g a n s := by
  have hg' : ¬ g ∉ APPROVAL_GATES := not_not_intro hg
  simp only [processGovIpc, govApprove, hg', if_false, hfind, hca, hce,
    approveEffect, updateTask]

/-- Looking the task up after the approve effect returns it with the bumped
version. -/
theorem findTask_approveEffect (s : GovState) (tid g a : String) (n : Option String) :
    findTask (approveEffect tid g a n s) tid =
      (findTask s tid).map (fun t => { t with version := t.version + 1 }) := by
  simp only [findTask, approveEffect]
  exact find_map_update s.tasks tid (fun t => { t with version := t.version + 1 })
    (fun t => rfl)

/-- C8: Approve is idempotent per `(task, gate_type)`: after two permitted
approve commands for the same task and gate, exactly one approval row for
that pair remains and it carries the second command's approver and notes,
while each command appends its own `approve` activity. -/
theorem approve_idempotent_upsert :
    ∀ (s : GovState) (tid : String) (task : Task) (g : String)
      (n1 n2 : Option String) (a1 a2 : String) (m1 m2 strict : Bool),
      findTask s tid = some task →
      g ∈ APPROVAL_GATES →
      checkApprover g a1 m1 = none →
      checkApproverNotExecutor a1 task.executor = none →
      checkApprover g a2 m2 = none →
      checkApproverNotExecutor a2 task.executor = none →
      ((processGovIpc (.approve (some tid) g n2) a2 m2 strict
          (processGovIpc (.approve (some tid) g n1) a1 m1 strict s)).approvals.filter
        (fun x => x.task_id == tid && x.gate_type == g) = [⟨tid, g, a2, n2⟩]) ∧
      ((processGovIpc (.approve (some tid) g n2) a2 m2 strict
          (processGovIpc (.approve (some tid) g n1) a1 m1 strict s)).activities.countP
        (fun x => x.task_id == tid && x.action == "approve") =
       s.activities.countP (fun x => x.task_id == tid && x.action == "approve") + 2) := by
  intro s tid task g n1 n2 a1 a2 m1 m2 strict hfind hg hca1 hce1 hca2 hce2
  rw [processGovIpc_approve_components n1 a1 m1 strict hfind hg hca1 hce1]
  have hfind1 : findTask (approveEffect tid g a1 n1 s) tid =
      some { task with version := task.version + 1 } := by
    rw [findTask_approveEffect, hfind]
    rfl
  rw [processGovIpc_approve_components n2 a2 m2 strict hfind1 hg hca2 hce2]
  constructor
  · show (((⟨tid, g, a2, n2⟩ : GovApproval) ::
        ((approveEffect tid g a1 n1 s).approvals.filter
          (fun x => !(x.task_id == tid && x.gate_type == g)))).filter
        (fun x => x.task_id == tid && x.gate_type == g)) = [⟨tid, g, a2, n2⟩]
    rw [List.filter_cons_of_pos (by simp)]
    show (⟨tid, g, a2, n2⟩ : GovApproval) ::
        ((((⟨tid, g, a1, n1⟩ : GovApproval) ::
          s.approvals.filter (fun x => !(x.task_id == tid && x.gate_type == g))).filter
            (fun x => !(x.task_id == tid && x.gate_type == g))).filter
          (fun x => x.task_id == tid && x.gate_type == g)) = [⟨tid, g, a2, n2⟩]
    rw [List.filter_cons_of_neg (by simp), filter_not_idem, filter_not_filter]
  · show ((⟨tid, "approve", none, none, a2, some ("Gate " ++ g ++ " approved")⟩ : Activity) ::
        (⟨tid, "approve", none, none, a1, some ("Gate " ++ g ++ " approved")⟩ : Activity) ::
        s.activities).countP (fun x => x.task_id == tid && x.action == "approve") =
      s.activities.countP (fun x => x.task_id == tid && x.action == "approve") + 2
    rw [List.countP_cons, List.countP_cons]
    simp

/-- C8 witness: approving as `security` then as `main` keeps exactly the
second approval row and logs two approve activities. -/
theorem approve_idempotent_upsert_witness :
    ((processGovIpc (.approve (some "task-review") "Security" (some "second"))
        "main" true false
        (processGovIpc (.approve (some "task-review") "Security" (some "first"))
          "security" false false
          ⟨[], [⟨"task-review", "x", "BUG", "APPROVAL", "P2", "COMPANY", none,
            "developer", none, "main", "Security", 1⟩], [], []⟩)).approvals.filter
      (fun x => x.task_id == "task-review" && x.gate_type == "Security") =
      [⟨"task-review", "Security", "main", some "second"⟩]) ∧
    ((processGovIpc (.approve (some "task-review") "Security" (some "second"))
        "main" true false
        (processGovIpc (.approve (some "task-review") "Security" (some "first"))
          "security" false false
          ⟨[], [⟨"task-review", "x", "BUG", "APPROVAL", "P2", "COMPANY", none,
            "developer", none, "main", "Security", 1⟩], [], []⟩)).activities.countP
      (fun x => x.task_id == "task-review" && x.action == "approve") =
      ([] : List Activity).countP
        (fun x => x.task_id == "task-review" && x.action == "approve") + 2) :=
  approve_idempotent_upsert
    ⟨[], [⟨"task-review", "x", "BUG", "APPROVAL", "P2", "COMPANY", none,
      "developer", none, "main", "Security", 1⟩], [], []⟩
    "task-review"
    ⟨"task-review", "x", "BUG", "APPROVAL", "P2", "COMPANY", none,
      "developer", none, "main", "Security", 1⟩
    "Security" (some "first") (some "second") "security" "main" false true false
    rfl (by decide) rfl rfl rfl rfl

/-- C10: a `DOING → REVIEW` transition carrying a non-blank reason logs an
`execution_summary` activity with that reason even with strict mode off. -/
theorem execution_summary_logged_nonstrict :
    ∀ (s : GovState) (tid : String) (task : Task) (r : String)
      (ev : Option Nat) (sender : String) (isMain : Bool),
      findTask s tid = some task →
      task.state = "DOING" →
      (isMain ∨ sender = task.assigned_group) →
      (ev = none ∨ ev = some task.version) →
      isBlank r = false →
      ∃ s', govTransition (some tid) "REVIEW" (some r) ev sender isMain false s
          = .ok s' ∧
        Activity.mk tid "execution_summary" (some "DOING") (some "REVIEW")
          sender (some r) ∈ s'.activities := by
  intro s tid task r ev sender isMain hfind hstate hauth hev hr
  have hstale : staleVersion ev task.version = false := by
    rcases hev with h | h <;> simp [staleVersion, h]
  cases hres : govTransition (some tid) "REVIEW" (some r) ev sender isMain false s with
  | error e =>
    exfalso
    simp [govTransition, hfind, hauth, hstale, hstate, hr, validateTransition,
      transitionGraph] at hres
  | ok s2 =>
    refine ⟨s2, rfl, ?_⟩
    simp [govTransition, hfind, hauth, hstale, hstate, hr, validateTransition,
      transitionGraph] at hres
    rw [← hres]
    simp [List.mem_append]

/-- C10 witness: with `GOV_STRICT` unset a reasoned `DOING → REVIEW`
transition still logs the summary activity. -/
theorem execution_summary_logged_nonstrict_witness :
    ∃ s', govTransition (some "t") "REVIEW" (some "Done with work") none
        "developer" false false
        ⟨[], [⟨"t", "x", "BUG", "DOING", "P2", "COMPANY", none, "developer",
          none, "main", "None", 3⟩], [], []⟩ = .ok s' ∧
      Activity.mk "t" "execution_summary" (some "DOING") (some "REVIEW")
        "developer" (some "Done with work") ∈ s'.activities :=
  execution_summary_logged_nonstrict
    ⟨[], [⟨"t", "x", "BUG", "DOING", "P2", "COMPANY", none, "developer",
      none, "main", "None", 3⟩], [], []⟩
    "t"
    ⟨"t", "x", "BUG", "DOING", "P2", "COMPANY", none, "developer",
      none, "main", "None", 3⟩
    "Done with work" none "developer" false rfl rfl (Or.inr rfl) (Or.inl rfl)
    (by decide)

/-- C1 counterexample: on the HTTP path a Create with `scope=COMPANY` and a
non-null `product_id` is NOT rejected — it returns 201 and creates the task
with `product_id` forced to null (`ops-actions-create.test.ts`, "COMPANY
scope forces product_id to null"). -/
theorem create_company_product_http_accepts :
    (opsActionsCreate
      ⟨"gov-1", some "Company task", none, some "OPS", none, none,
        some "COMPANY", some "prod-test", none⟩
      ⟨[⟨"prod-test", "Test Product", "active"⟩], [], [], []⟩).1.status = 201 ∧
    ((opsActionsCreate
      ⟨"gov-1", some "Company task", none, some "OPS", none, none,
        some "COMPANY", some "prod-test", none⟩
      ⟨[⟨"prod-test", "Test Product", "active"⟩], [], [], []⟩).2.tasks.map
      (fun t => (t.id, t.scope, t.product_id))) = [("gov-1", "COMPANY", none)] := by
  decide

/-- C1 (amended): a Create whose input has `scope=COMPANY` together with a
non-null `product_id` is rejected on the IPC command path with no task
created; on the HTTP `POST /ops/actions/create` path the same input is
accepted — the handler forces `product_id` to null, answers 201, and the
created task carries `scope=COMPANY` and `product_id=null`. -/
theorem create_company_with_product_rejected_ipc_only :
    (∀ (s : GovState) (input : CreateInput) (sender : String)
        (isMain strict : Bool) (pid : String),
      input.scope = some "COMPANY" → input.product_id = some pid →
      (∃ e, govCreate input sender isMain s = .error e) ∧
      processGovIpc (.create input) sender isMain strict s = s) ∧
    (∀ (s : GovState) (input : CreateInput) (pid title tt : String),
      input.title = some title → title ≠ "" → title.length ≤ 140 →
      input.task_type = some tt → tt ∈ TASK_TYPES →
      input.priority.getD "P2" ∈ PRIORITIES →
      input.gate.getD "None" ∈ GATES →
      input.scope = some "COMPANY" → input.product_id = some pid →
      (opsActionsCreate input s).1.status = 201 ∧
      ∃ tk ∈ (opsActionsCreate input s).2.tasks,
        tk.id = input.id ∧ tk.scope = "COMPANY" ∧ tk.product_id = none) := by
  constructor
  · intro s input sender isMain strict pid hscope hpid
    have herr : ∃ e, govCreate input sender isMain s = .error e := by
      cases hres : govCreate input sender isMain s with
      | error e => exact ⟨e, rfl⟩
      | ok x =>
        exfalso
        simp only [govCreate, hscope, hpid, Option.getD_some] at hres
        repeat' split at hres
        all_goals simp_all
    refine ⟨herr, ?_⟩
    obtain ⟨e, he⟩ := herr
    simp [processGovIpc, he]
  · intro s input pid title tt ht h0 h140 htt htt2 hpr hg hscope hpid
    have h140' : ¬ (title.length > 140) := by omega
    have hres : opsActionsCreate input s =
        (⟨201, none, some input.id⟩,
         { products := s.products,
           tasks := ⟨input.id, title, tt, "INBOX", input.priority.getD "P2",
             "COMPANY", none, input.assigned_group.getD "main", none, "main",
             input.gate.getD "None", 1⟩ :: s.tasks,
           activities := ⟨input.id, "create", none, some "INBOX", "main", none⟩ ::
             s.activities,
           approvals := s.approvals }) := by
      simp [opsActionsCreate, govCreate, ht, h0, h140', htt, htt2, hpr, hg,
        hscope, hpid, SCOPES]
    rw [hres]
    exact ⟨rfl, ⟨_, List.mem_cons_self _ _, rfl, rfl, rfl⟩⟩

/-- C1 witness: the IPC path rejects `scope=COMPANY` with a `product_id`
even when the product exists, leaving the store untouched. -/
theorem create_company_with_product_rejected_ipc_only_witness :
    processGovIpc (.create
      ⟨"gov-1", some "Company task", none, some "OPS", none, none,
        some "COMPANY", some "prod-test", none⟩) "main" true false
      ⟨[⟨"prod-test", "Test Product", "active"⟩], [], [], []⟩ =
      ⟨[⟨"prod-test", "Test Product", "active"⟩], [], [], []⟩ :=
  (create_company_with_product_rejected_ipc_only.1
    ⟨[⟨"prod-test", "Test Product", "active"⟩], [], [], []⟩
    ⟨"gov-1", some "Company task", none, some "OPS", none, none,
      some "COMPANY", some "prod-test", none⟩
    "main" true false "prod-test" rfl rfl).2

/-- C2 counterexample: on the HTTP path a Create with `scope=PRODUCT` and no
`product_id` is NOT coerced — it is rejected with 400 and no task and no
`coerce_scope` activity are written (`ops-actions-create.test.ts`, "PRODUCT
scope without product_id returns 400"). -/
theorem create_product_scope_http_rejects :
    (opsActionsCreate
      ⟨"gov-2", some "Orphan", none, some "BUG", none, none,
        some "PRODUCT", none, none⟩ ⟨[], [], [], []⟩).1.status = 400 ∧
    (opsActionsCreate
      ⟨"gov-2", some "Orphan", none, some "BUG", none, none,
        some "PRODUCT", none, none⟩ ⟨[], [], [], []⟩).2 = ⟨[], [], [], []⟩ := by
  decide

/-- C2 (amended): a Create whose input has `scope=PRODUCT` and no
`product_id` is, on the IPC command path, coerced: the task is created in
`INBOX` with `scope=COMPANY` and `product_id=null` and a `coerce_scope`
activity with reason `PRODUCT_SCOPE_WITHOUT_PRODUCT_ID` and actor `system`
is logged; on the HTTP `POST /ops/actions/create` path the same input is
rejected with 400 and the store is unchanged. -/
theorem product_scope_coercion_ipc_only :
    (∀ (s : GovState) (input : CreateInput) (sender : String) (title tt : String),
      input.title = some title → title ≠ "" → title.length ≤ 140 →
      input.task_type = some tt → tt ∈ TASK_TYPES →
      input.priority.getD "P2" ∈ PRIORITIES →
      input.gate.getD "None" ∈ GATES →
      input.scope = some "PRODUCT" → input.product_id = none →
      ∃ s', govCreate input sender true s = .ok (input.id, s') ∧
        (∃ tk ∈ s'.tasks, tk.id = input.id ∧ tk.scope = "COMPANY" ∧
          tk.product_id = none ∧ tk.state = "INBOX" ∧ tk.version = 1) ∧
        Activity.mk input.id "coerce_scope" none none "system"
          (some "PRODUCT_SCOPE_WITHOUT_PRODUCT_ID") ∈ s'.activities) ∧
    (∀ (s : GovState) (input : CreateInput),
      input.scope = some "PRODUCT" → input.product_id = none →
      (opsActionsCreate input s).1.status = 400 ∧
      (opsActionsCreate input s).2 = s) := by
  constructor
  · intro s input sender title tt ht h0 h140 htt htt2 hpr hg hscope hpid
    have h140' : ¬ (title.length > 140) := by omega
    have hres : govCreate input sender true s =
        .ok (input.id,
         { products := s.products,
           tasks := ⟨input.id, title, tt, "INBOX", input.priority.getD "P2",
             "COMPANY", none, input.assigned_group.getD "main", none, sender,
             input.gate.getD "None", 1⟩ :: s.tasks,
           activities :=
             ⟨input.id, "coerce_scope", none, none, "system",
               some "PRODUCT_SCOPE_WITHOUT_PRODUCT_ID"⟩ ::
             ⟨input.id, "create", none, some "INBOX", sender, none⟩ ::
             s.activities,
           approvals := s.approvals }) := by
      simp [govCreate, ht, h0, h140', htt, htt2, hpr, hg, hscope, hpid, SCOPES]
    refine ⟨_, hres, ⟨_, List.mem_cons_self _ _, rfl, rfl, rfl, rfl, rfl⟩, ?_⟩
    exact List.mem_cons_self _ _
  · intro s input hscope hpid
    simp only [opsActionsCreate, hscope, hpid, Option.getD_some]
    repeat' split
    all_goals first
      | exact ⟨rfl, rfl⟩
      | simp_all

/-- C2 witness: the IPC path coerces a `PRODUCT`-scoped create without a
`product_id` into a COMPANY task and logs the `coerce_scope` activity. -/
theorem product_scope_coercion_ipc_only_witness :
    ∃ s', govCreate
        ⟨"gov-2", some "Orphan", none, some "BUG", none, none,
          some "PRODUCT", none, none⟩ "main" true ⟨[], [], [], []⟩ =
        .ok ("gov-2", s') ∧
      (∃ tk ∈ s'.tasks, tk.id = "gov-2" ∧ tk.scope = "COMPANY" ∧
        tk.product_id = none ∧ tk.state = "INBOX" ∧ tk.version = 1) ∧
      Activity.mk "gov-2" "coerce_scope" none none "system"
        (some "PRODUCT_SCOPE_WITHOUT_PRODUCT_ID") ∈ s'.activities :=
  product_scope_coercion_ipc_only.1 ⟨[], [], [], []⟩
    ⟨"gov-2", some "Orphan", none, some "BUG", none, none,
      some "PRODUCT", none, none⟩
    "main" "Orphan" "BUG" rfl (by decide) (by decide) rfl (by decide)
    (by decide) (by decide) rfl rfl

/-- `latestBy` returns an element of the list. -/
theorem latestBy_mem {f : ExtCall → String} :
    ∀ {l : List ExtCall} {c : ExtCall}, latestBy f l = some c → c ∈ l := by
  intro l
  induction l with
  | nil => intro c h; simp [latestBy] at h
  | cons a rest ih =>
    intro c h
    simp only [latestBy] at h
    cases hr : latestBy f rest with
    | none =>
      rw [hr] at h
      simp at h
      simp [h]
    | some b =>
      rw [hr] at h
      by_cases hle : f a ≤ f b
      · simp [hle] at h
        subst h
        exact List.mem_cons_of_mem a (ih hr)
      · simp [hle] at h
        simp [h]

/-- `latestBy` is none exactly on the empty list. -/
theorem latestBy_eq_none {f : ExtCall → String} :
    ∀ {l : List ExtCall}, latestBy f l = none ↔ l = [] := by
  intro l
  cases l with
  | nil => simp [latestBy]
  | cons a rest =>
    simp only [latestBy]
    cases hr : latestBy f rest with
    | none => simp
    | some b =>
      by_cases hle : f a ≤ f b <;> simp [hle]

/-- The element `latestBy` returns carries the maximal key. -/
theorem le_latestBy {f : ExtCall → String} :
    ∀ {l : List ExtCall} {c : ExtCall}, latestBy f l = some c →
      ∀ c2 ∈ l, f c2 ≤ f c := by
  intro l
  induction l with
  | nil => intro c _ c2 h2; simp at h2
  | cons a rest ih =>
    intro c h c2 h2
    simp only [latestBy] at h
    cases hr : latestBy f rest with
    | none =>
      rw [hr] at h
      simp at h
      subst h
      have hrest : rest = [] := latestBy_eq_none.mp hr
      subst hrest
      simp at h2
      subst h2
      exact le_refl _
    | some b =>
      rw [hr] at h
      rcases List.mem_cons.mp h2 with h2 | h2
      · subst h2
        by_cases hle : f c2 ≤ f b
        · simp [hle] at h
          subst h
          exact hle
        · simp [hle] at h
          subst h
          exact le_refl _
      · have hb := ih hr c2 h2
        by_cases hle : f a ≤ f b
        · simp [hle] at h
          subst h
          exact hb
        · simp [hle] at h
          subst h
          exact le_trans hb (le_of_not_le hle)

/-- C9: the broker's idempotency lookup returns a call only when it matches
the key, provider and action exactly and has status `executed` (any other
status or provider is ignored), and any returned call is the most recently
created among the matches; it returns none exactly when no such call
exists. -/
theorem idempotency_lookup_spec :
    ∀ (calls : List ExtCall) (key provider action : String),
      (∀ c : ExtCall, getExtCallByIdempotencyKey key provider action calls = some c →
        c ∈ calls ∧ c.idempotency_key = some key ∧ c.provider = provider ∧
        c.action = action ∧ c.status = "executed" ∧
        (∀ c2 ∈ calls, c2.idempotency_key = some key → c2.provider = provider →
          c2.action = action → c2.status = "executed" →
          c2.created_at ≤ c.created_at)) ∧
      (getExtCallByIdempotencyKey key provider action calls = none ↔
        ∀ c ∈ calls, ¬ (c.idempotency_key = some key ∧ c.provider = provider ∧
          c.action = action ∧ c.status = "executed")) := by
  intro calls key provider action
  constructor
  · intro c hc
    have hin := latestBy_mem hc
    rw [List.mem_filter] at hin
    obtain ⟨hin, hp⟩ := hin
    simp only [Bool.and_eq_true, beq_iff_eq] at hp
    refine ⟨hin, hp.1.1.1, hp.1.1.2, hp.1.2, hp.2, ?_⟩
    intro c2 hc2 h1 h2 h3 h4
    have hc2f : c2 ∈ calls.filter (fun x =>
        x.idempotency_key == some key && x.provider == provider &&
        x.action == action && x.status == "executed") := by
      rw [List.mem_filter]
      exact ⟨hc2, by simp [h1, h2, h3, h4]⟩
    exact le_latestBy hc c2 hc2f
  · rw [show getExtCallByIdempotencyKey key provider action calls =
        latestBy (fun c => c.created_at) (calls.filter (fun x =>
          x.idempotency_key == some key && x.provider == provider &&
          x.action == action && x.status == "executed")) from rfl]
    rw [latestBy_eq_none, List.filter_eq_nil_iff]
    constructor
    · intro h c hc hprops
      exact h c hc (by simp [hprops.1, hprops.2.1, hprops.2.2.1, hprops.2.2.2])
    · intro h c hc hp
      simp only [Bool.and_eq_true, beq_iff_eq] at hp
      exact h c hc ⟨hp.1.1.1, hp.1.1.2, hp.1.2, hp.2⟩

/-- C9 witness: with a failed call and an executed call under the same key
the lookup returns the executed one, whose fields match the query, and it
bounds the creation time of every matching call. -/
theorem idempotency_lookup_spec_witness :
    (⟨"r2", "developer", "github", "list_repos", "executed", some "B", none,
      some "k2", "2026-02-14T01:00:00.000Z"⟩ : ExtCall) ∈
      [⟨"r1", "developer", "github", "list_repos", "failed", none, none,
        some "k2", "2026-02-14T00:00:00.000Z"⟩,
       ⟨"r2", "developer", "github", "list_repos", "executed", some "B", none,
        some "k2", "2026-02-14T01:00:00.000Z"⟩] ∧
    (⟨"r2", "developer", "github", "list_repos", "executed", some "B", none,
      some "k2", "2026-02-14T01:00:00.000Z"⟩ : ExtCall).idempotency_key = some "k2" ∧
    (⟨"r2", "developer", "github", "list_repos", "executed", some "B", none,
      some "k2", "2026-02-14T01:00:00.000Z"⟩ : ExtCall).provider = "github" ∧
    (⟨"r2", "developer", "github", "list_repos", "executed", some "B", none,
      some "k2", "2026-02-14T01:00:00.000Z"⟩ : ExtCall).action = "list_repos" ∧
    (⟨"r2", "developer", "github", "list_repos", "executed", some "B", none,
      some "k2", "2026-02-14T01:00:00.000Z"⟩ : ExtCall).status = "executed" ∧
    (∀ c2 ∈ [(⟨"r1", "developer", "github", "list_repos", "failed", none,
        none, some "k2", "2026-02-14T00:00:00.000Z"⟩ : ExtCall),
       ⟨"r2", "developer", "github", "list_repos", "executed", some "B", none,
        some "k2", "2026-02-14T01:00:00.000Z"⟩],
      c2.idempotency_key = some "k2" → c2.provider = "github" →
      c2.action = "list_repos" → c2.status = "executed" →
      c2.created_at ≤ (⟨"r2", "developer", "github", "list_repos", "executed",
        some "B", none, some "k2", "2026-02-14T01:00:00.000Z"⟩ : ExtCall).created_at) :=
  (idempotency_lookup_spec
    [⟨"r1", "developer", "github", "list_repos", "failed", none, none,
      some "k2", "2026-02-14T00:00:00.000Z"⟩,
     ⟨"r2", "developer", "github", "list_repos", "executed", some "B", none,
      some "k2", "2026-02-14T01:00:00.000Z"⟩]
    "k2" "github" "list_repos").1
    ⟨"r2", "developer", "github", "list_repos", "executed", some "B", none,
      some "k2", "2026-02-14T01:00:00.000Z"⟩
    (by decide)

end Nanoclaw
